import Mathlib

/-!
Shallow embedding of the rustygear broker sources (src/src/codec.rs and
src/src/packet.rs) together with the parts of the data model that the
repository keeps in modules not present under src/ (constants, job, worker,
queues); those parts are modelled from the specification and are marked as
such in their doc comments.

Buffers and payloads are modelled as `List Nat` of byte values; `u32` values
are `Nat` (reduced `% 2^32` where the source casts); the `i8` counters of the
packet iterator are `Int` (their values never leave a tiny range, see the
comments at the definitions).  Rust panics (out-of-range slice indexing,
explicit `panic!`) are modelled as distinguished result constructors.
-/

namespace Rustygear

/-- Modelled from the spec: the `constants` module is not under src/.  The
spec fixes the magic byte strings: `"\0REQ"` for client→broker and `"\0RES"`
for broker→client. -/
def REQ : List Nat := [0, 82, 69, 81]

/-- Modelled from the spec: the `"\0RES"` magic bytes (constants module not
under src/). -/
def RES : List Nat := [0, 82, 69, 83]

/-- Modelled from the spec: the admin command codes from the missing
`constants` module.  Their concrete values are irrelevant to the broker's
behaviour; they only need to be pairwise distinct. -/
def ADMIN_VERSION : Nat := 1000

/-- Modelled from the spec: admin command code for `status`. -/
def ADMIN_STATUS : Nat := 1001

/-- Modelled from the spec: admin command code for an unrecognized line. -/
def ADMIN_UNKNOWN : Nat := 1002

/-- packet.rs: `pub struct PacketType` with a name, a numeric ptype and the
declared argument count `nargs: i8`. -/
structure PacketType where
  name : String
  ptype : Nat
  nargs : Int
deriving DecidableEq

/-- packet.rs: the static `PTYPES` table, all 43 entries verbatim. -/
def PTYPES : List PacketType := [
  ⟨"__UNUSED__", 0, -1⟩,
  ⟨"CAN_DO", 1, 0⟩,
  ⟨"CANT_DO", 2, 0⟩,
  ⟨"RESET_ABILITIES", 3, -1⟩,
  ⟨"PRE_SLEEP", 4, -1⟩,
  ⟨"__UNUSED__", 5, -1⟩,
  ⟨"NOOP", 6, -1⟩,
  ⟨"SUBMIT_JOB", 7, 2⟩,
  ⟨"JOB_CREATED", 8, 0⟩,
  ⟨"GRAB_JOB", 9, -1⟩,
  ⟨"NO_JOB", 10, -1⟩,
  ⟨"JOB_ASSIGN", 11, 2⟩,
  ⟨"WORK_STATUS", 12, 2⟩,
  ⟨"WORK_COMPLETE", 13, 1⟩,
  ⟨"WORK_FAIL", 14, 0⟩,
  ⟨"GET_STATUS", 15, 0⟩,
  ⟨"ECHO_REQ", 16, 0⟩,
  ⟨"ECHO_RES", 17, 1⟩,
  ⟨"SUBMIT_JOB_BG", 18, 2⟩,
  ⟨"ERROR", 19, 1⟩,
  ⟨"STATUS_RES", 20, 4⟩,
  ⟨"SUBMIT_JOB_HIGH", 21, 2⟩,
  ⟨"SET_CLIENT_ID", 22, 0⟩,
  ⟨"CAN_DO_TIMEOUT", 23, 1⟩,
  ⟨"ALL_YOURS", 24, -1⟩,
  ⟨"WORK_EXCEPTION", 25, 1⟩,
  ⟨"OPTION_REQ", 26, 0⟩,
  ⟨"OPTION_RES", 27, 0⟩,
  ⟨"WORK_DATA", 28, 1⟩,
  ⟨"WORK_WARNING", 29, 1⟩,
  ⟨"GRAB_JOB_UNIQ", 30, -1⟩,
  ⟨"JOB_ASSIGN_UNIQ", 31, 3⟩,
  ⟨"SUBMIT_JOB_HIGH_BG", 32, 2⟩,
  ⟨"SUBMIT_JOB_LOW", 33, 2⟩,
  ⟨"SUBMIT_JOB_LOW_BG", 34, 2⟩,
  ⟨"SUBMIT_JOB_SCHED", 35, 7⟩,
  ⟨"SUBMIT_JOB_EPOCH", 36, 3⟩,
  ⟨"SUBMIT_REDUCE_JOB", 37, 3⟩,
  ⟨"SUBMIT_REDUCE_JOB_BACKGROUND", 38, 3⟩,
  ⟨"GRAB_JOB_ALL", 39, -1⟩,
  ⟨"JOB_ASSIGN_ALL", 40, 4⟩,
  ⟨"GET_STATUS_UNIQUE", 41, 0⟩,
  ⟨"STATUS_RES_UNIQUE", 42, 5⟩]

/-- Ptype constants used by the dispatch code (values from the PTYPES
table in packet.rs). -/
def CAN_DO : Nat := 1
def CANT_DO : Nat := 2
def SUBMIT_JOB : Nat := 7
def JOB_CREATED : Nat := 8
def NO_JOB : Nat := 10
def GRAB_JOB_ALL : Nat := 39

/-- packet.rs: `enum PacketMagic`. -/
inductive PacketMagic where
  | UNKNOWN
  | REQ
  | RES
  | TEXT
deriving DecidableEq

/-- packet.rs: `struct Packet`.  `_field_byte_count: usize` is a `Nat`;
`_field_count: i8` is an `Int` (the iterator stops increasing it at
`nargs + 1 ≤ 8`, far below the i8 bounds, so plain integers are a faithful
model). -/
structure Packet where
  magic : PacketMagic
  ptype : Nat
  psize : Nat
  data : List Nat
  _field_byte_count : Nat
  _field_count : Int
deriving DecidableEq

/-- packet.rs: `struct ParseError`. -/
structure ParseError where
deriving DecidableEq

/-- The `PTYPES[self.ptype as usize].nargs` lookup of the iterator.  The
source indexes the static array directly and panics for `ptype ≥ 43`; every
claim about the iterator concerns valid ptypes, so the lookup is embedded
with an out-of-range default (nargs `-1`) that is never reached under the
theorems' hypotheses. -/
def Packet.nargs (p : Packet) : Int :=
  (PTYPES.getD p.ptype ⟨"__UNUSED__", 0, -1⟩).nargs

/-- The byte scan of `Iterator::next` in packet.rs: starting from byte
position `fbc`, advance `fbc` once per byte of the remaining data, stopping
right after the first NUL (the loop body increments `_field_byte_count` and
then breaks when the byte is NUL, so the final position is one past the
separator). -/
def scanField : List Nat → Nat → Nat
  | [], fbc => fbc
  | b :: rest, fbc => if b = 0 then fbc + 1 else scanField rest (fbc + 1)

/-- packet.rs, `impl Iterator for Packet::next`.  The source first rejects
when `_field_count > nargs`, then increments `_field_count`; if the
incremented count equals `nargs` it returns the range from the current byte
position to the end of data without moving the byte position; otherwise it
scans to just past the next NUL (or the end of data).  The `let p' = ...`
increment of the source is flattened into the two `some` branches. -/
def Packet.next (p : Packet) : Option (Nat × Nat) × Packet :=
  if p._field_count > p.nargs then
    (none, p)
  else if p._field_count + 1 = p.nargs then
    (some (p._field_byte_count, p.data.length),
      { p with _field_count := p._field_count + 1 })
  else
    (some (p._field_byte_count,
        scanField (p.data.drop p._field_byte_count) p._field_byte_count),
      { p with
          _field_count := p._field_count + 1,
          _field_byte_count :=
            scanField (p.data.drop p._field_byte_count) p._field_byte_count })

/-- packet.rs: `Packet::nextField` — one iterator step; `None` becomes a
`ParseError`, otherwise the bytes `data[start..finish]` are copied out.  The
source's slice is in range because the iterator keeps
`start ≤ finish ≤ data.len()`; `drop`/`take` are the total embedding of the
slice. -/
def Packet.nextField (p : Packet) : Except ParseError (List Nat × Packet) :=
  match p.next with
  | (none, _) => .error ⟨⟩
  | (some (start, finish), p') =>
      .ok (((p'.data.drop start).take (finish - start)), p')

/-- packet.rs: `Packet::new` (UNKNOWN magic, zero sizes, empty data). -/
def Packet.new : Packet :=
  { magic := .UNKNOWN, ptype := 0, psize := 0, data := [],
    _field_byte_count := 0, _field_count := 0 }

/-- packet.rs: `Packet::new_res` — a RES packet whose psize is
`data.len() as u32`. -/
def Packet.new_res (ptype : Nat) (data : List Nat) : Packet :=
  { magic := .RES, ptype := ptype, psize := data.length % 4294967296,
    data := data, _field_byte_count := 0, _field_count := 0 }

/-- A freshly received request packet as the read path builds it: the given
ptype and payload with the iterator state at its initial zeroes. -/
def requestPacket (ptype : Nat) (data : List Nat) : Packet :=
  { magic := .REQ, ptype := ptype, psize := data.length % 4294967296,
    data := data, _field_byte_count := 0, _field_count := 0 }

/-- Modelled from the spec: the `worker` module is not under src/.  Per the
spec a worker record carries `functions`, a set of function names; the set is
embedded as a duplicate-free list in declaration order (the spec's
`get_job` scans "in the order the worker declared them"). -/
structure Worker where
  functions : List (List Nat)
deriving DecidableEq

/-- Set insertion on the declaration-order list: `HashSet::insert` adds the
element only when it is not already present. -/
def setInsert (f : List Nat) (s : List (List Nat)) : List (List Nat) :=
  if f ∈ s then s else s ++ [f]

/-- Set removal: `HashSet::remove` deletes the element. -/
def setRemove (f : List Nat) (s : List (List Nat)) : List (List Nat) :=
  s.filter (fun g => ¬ g = f)

/-- packet.rs: `Packet::handleCanDo` — read one field (the function name),
insert it into the worker's abilities, reply with nothing. -/
def Packet.handleCanDo (p : Packet) (worker : Worker) :
    Except ParseError (Option Packet × Packet × Worker) :=
  match p.nextField with
  | .error e => .error e
  | .ok (fname, p') => .ok (none, p', ⟨setInsert fname worker.functions⟩)

/-- packet.rs: `Packet::handleCantDo` — read one field, remove it from the
worker's abilities, reply with nothing. -/
def Packet.handleCantDo (p : Packet) (worker : Worker) :
    Except ParseError (Option Packet × Packet × Worker) :=
  match p.nextField with
  | .error e => .error e
  | .ok (fname, p') => .ok (none, p', ⟨setRemove fname worker.functions⟩)

/-- Modelled from the spec: job priority (the `job` module is not under
src/).  SUBMIT_JOB creates NORMAL-priority jobs. -/
inductive Priority where
  | HIGH
  | NORMAL
  | LOW
deriving DecidableEq

/-- Modelled from the spec: the `job` module is not under src/.  A job has a
broker-assigned handle, the client's function name, dedup key and payload,
and a priority. -/
structure Job where
  handle : List Nat
  fname : List Nat
  unique : List Nat
  data : List Nat
  priority : Priority
deriving DecidableEq

/-- Modelled from the spec: `Job::new(fname, unique, data)` assigns a
broker-generated handle that is "globally unique for the broker lifetime";
handle generation is embedded as a counter threaded through the dispatcher,
rendered as four little-endian bytes (an opaque identifier, injective for
every counter value the broker can reach). -/
def Job.new (ctr : Nat) (fname unique data : List Nat) : Job :=
  { handle := [ctr % 256, ctr / 256 % 256, ctr / 65536 % 256,
      ctr / 16777216 % 256],
    fname := fname, unique := unique, data := data,
    priority := Priority.NORMAL }

/-- Modelled from the spec: the `queues` module is not under src/.  The three
per-function FIFO priority queues are embedded as the single list of queued
jobs in arrival order; a job's queue is recovered from its `fname` and
`priority` fields, so FIFO-within-priority is the order of this list
restricted to one `(fname, priority)`. -/
structure QueueHolder where
  jobs : List Job
deriving DecidableEq

/-- Modelled from the spec: `add_job` — "if `(fname, unique)` is already
present as a non-terminal job, coalesce — do not insert a new job ...
otherwise enqueue at the tail". -/
def QueueHolder.add_job (q : QueueHolder) (j : Job) : QueueHolder :=
  if q.jobs.any (fun j2 => j2.fname = j.fname ∧ j2.unique = j.unique) then q
  else ⟨q.jobs ++ [j]⟩

/-- Modelled from the spec: the first queued job for function `f` at
priority `pr` (FIFO order). -/
def findQueued (f : List Nat) (pr : Priority) (jobs : List Job) :
    Option Job :=
  jobs.find? (fun j => j.fname = f ∧ j.priority = pr)

/-- Modelled from the spec: `get_job` scans the worker's functions in
declaration order, at each function considering HIGH then NORMAL then LOW,
and returns the first non-empty head. -/
def findMatch (functions : List (List Nat)) (jobs : List Job) : Option Job :=
  match functions with
  | [] => none
  | f :: fs =>
      match findQueued f Priority.HIGH jobs with
      | some j => some j
      | none =>
          match findQueued f Priority.NORMAL jobs with
          | some j => some j
          | none =>
              match findQueued f Priority.LOW jobs with
              | some j => some j
              | none => findMatch fs jobs

/-- Modelled from the spec: `get_job(function_set)` returns the first
matching queued job, dequeued, or `None` with the queues unchanged. -/
def QueueHolder.get_job (q : QueueHolder) (functions : List (List Nat)) :
    Option Job × QueueHolder :=
  match findMatch functions q.jobs with
  | none => (none, q)
  | some j => (some j, ⟨q.jobs.erase j⟩)

/-- packet.rs: `Packet::handleGrabJobAll` — when `get_job` finds nothing,
reply NO_JOB with an empty payload; when it finds a job `j`, the source binds
`j` and then falls through to `Ok(None)`: no JOB_ASSIGN_ALL packet is built
and the dequeued job is dropped. -/
def Packet.handleGrabJobAll (_p : Packet) (queues : QueueHolder)
    (worker : Worker) : Except ParseError (Option Packet × QueueHolder) :=
  match queues.get_job worker.functions with
  | (none, q') => .ok (some (Packet.new_res NO_JOB []), q')
  | (some _, q') => .ok (none, q')

/-- packet.rs: `Packet::handleSubmitJob` — read three fields, build a fresh
job (fresh broker handle), build the JOB_CREATED reply from that fresh job's
handle, then hand the job to `add_job`.  The reply is constructed before and
independently of `add_job`, so it always carries the fresh handle.  `ctr` is
the handle-generation state (see `Job.new`). -/
def Packet.handleSubmitJob (p : Packet) (queues : QueueHolder) (ctr : Nat) :
    Except ParseError (Option Packet × Packet × QueueHolder × Nat) :=
  match p.nextField with
  | .error e => .error e
  | .ok (fname, p1) =>
    match p1.nextField with
    | .error e => .error e
    | .ok (unique, p2) =>
      match p2.nextField with
      | .error e => .error e
      | .ok (data, p3) =>
          let j := Job.new ctr fname unique data
          let reply := Packet.new_res JOB_CREATED j.handle
          .ok (some reply, p3, queues.add_job j, ctr + 1)

/-- packet.rs: `Packet::process` — dispatch on ptype; unimplemented types
yield no reply. -/
def Packet.process (p : Packet) (queues : QueueHolder) (worker : Worker)
    (ctr : Nat) :
    Except ParseError (Option Packet × Packet × QueueHolder × Worker × Nat) :=
  if p.ptype = SUBMIT_JOB then
    match p.handleSubmitJob queues ctr with
    | .error e => .error e
    | .ok (r, p', q', ctr') => .ok (r, p', q', worker, ctr')
  else if p.ptype = CAN_DO then
    match p.handleCanDo worker with
    | .error e => .error e
    | .ok (r, p', w') => .ok (r, p', queues, w', ctr)
  else if p.ptype = CANT_DO then
    match p.handleCantDo worker with
    | .error e => .error e
    | .ok (r, p', w') => .ok (r, p', queues, w', ctr)
  else if p.ptype = GRAB_JOB_ALL then
    match p.handleGrabJobAll queues worker with
    | .error e => .error e
    | .ok (r, q') => .ok (r, p, q', worker, ctr)
  else
    .ok (none, p, queues, worker, ctr)

/-! ## codec.rs -/

/-- codec.rs: `struct PacketHeader`. -/
structure PacketHeader where
  magic : PacketMagic
  ptype : Nat
  psize : Nat
deriving DecidableEq

/-- tokio_proto's streaming `Frame` as the codec uses it: a message header
(with a has-body flag), a body chunk (`none` is the end-of-body marker), or
an error frame. -/
inductive Frame where
  | Message (message : PacketHeader) (body : Bool)
  | Body (chunk : Option (List Nat))
  | Error
deriving DecidableEq

/-- Result of a decoder call: a Rust panic (out-of-range slice index or an
explicit `panic!`), an `Err(io::Error)`, or `Ok` with the optional frame and
the bytes left in the buffer after the call's `split_to` consumption. -/
inductive DecodeRes where
  | panic
  | ioError
  | ok (item : Option Frame) (buf : List Nat)
deriving DecidableEq

/-- Big-endian `u32` read of `split_to(4).into_buf().get_u32::<BigEndian>()`;
callers guarantee at least four bytes. -/
def getU32BE (bs : List Nat) : Nat :=
  match bs with
  | b0 :: b1 :: b2 :: b3 :: _ =>
      b0 % 256 * 16777216 + b1 % 256 * 65536 + b2 % 256 * 256 + b3 % 256
  | _ => 0

/-- Big-endian `u32` write of `put_u32::<BigEndian>` /
`write_u32::<BigEndian>`. -/
def putU32BE (n : Nat) : List Nat :=
  [n / 16777216 % 256, n / 65536 % 256, n / 256 % 256, n % 256]

/-- `buf.iter().position(|b| *b == target)` of admin_decode. -/
def position (target : Nat) : List Nat → Option Nat
  | [] => none
  | b :: rest =>
      if b = target then some 0 else (position target rest).map (· + 1)

/-- Continuation byte test of UTF-8 validation (`0x80..=0xBF`). -/
def utf8Cont (b : Nat) : Prop := 128 ≤ b ∧ b ≤ 191

instance (b : Nat) : Decidable (utf8Cont b) := by
  unfold utf8Cont; infer_instance

/-- `str::from_utf8` of admin_decode: std's UTF-8 validation (RFC 3629,
surrogates and overlong forms rejected), returning the decoded code points
when the bytes are valid and `none` otherwise. -/
def utf8Decode : List Nat → Option (List Nat)
  | [] => some []
  | b :: rest =>
    if b < 128 then (utf8Decode rest).map (b :: ·)
    else if b < 194 then none
    else if b ≤ 223 then
      match rest with
      | b1 :: rest2 =>
          if utf8Cont b1 then
            (utf8Decode rest2).map (((b - 192) * 64 + (b1 - 128)) :: ·)
          else none
      | [] => none
    else if b ≤ 239 then
      match rest with
      | b1 :: b2 :: rest3 =>
          if (if b = 224 then 160 ≤ b1 ∧ b1 ≤ 191
              else if b = 237 then 128 ≤ b1 ∧ b1 ≤ 159
              else utf8Cont b1) ∧ utf8Cont b2 then
            (utf8Decode rest3).map
              (((b - 224) * 4096 + (b1 - 128) * 64 + (b2 - 128)) :: ·)
          else none
      | _ => none
    else if b ≤ 244 then
      match rest with
      | b1 :: b2 :: b3 :: rest4 =>
          if (if b = 240 then 144 ≤ b1 ∧ b1 ≤ 191
              else if b = 244 then 128 ≤ b1 ∧ b1 ≤ 143
              else utf8Cont b1) ∧ utf8Cont b2 ∧ utf8Cont b3 then
            (utf8Decode rest4).map
              (((b - 240) * 262144 + (b1 - 128) * 4096 + (b2 - 128) * 64 +
                (b3 - 128)) :: ·)
          else none
      | _ => none
    else none

/-- `char::is_whitespace` (the White_Space property), used by `str::trim`. -/
def rustWhitespace (c : Nat) : Bool :=
  c = 9 ∨ c = 10 ∨ c = 11 ∨ c = 12 ∨ c = 13 ∨ c = 32 ∨ c = 133 ∨ c = 160 ∨
    c = 5760 ∨ (8192 ≤ c ∧ c ≤ 8202) ∨ c = 8232 ∨ c = 8233 ∨ c = 8239 ∨
    c = 8287 ∨ c = 12288

/-- `str::trim` on the decoded code points: drop whitespace from both
ends. -/
def rustTrim (cs : List Nat) : List Nat :=
  ((cs.dropWhile rustWhitespace).reverse.dropWhile rustWhitespace).reverse

/-- Code points of a Lean string literal, for comparing the trimmed admin
line against the `"version"` / `"status"` match arms. -/
def strCodes (s : String) : List Nat := s.toList.map Char.toNat

/-- codec.rs: `PacketHeader::admin_decode` — find the first LF; with no LF,
wait for more data.  Otherwise split off the line and the LF, require the
line to be valid UTF-8 (an `io::Error` closes the connection if not), and
classify the trimmed line: `"version"` and `"status"` map to their admin
command codes, anything else to ADMIN_UNKNOWN; the result is a bodiless TEXT
header frame. -/
def admin_decode (buf : List Nat) : DecodeRes :=
  match position 10 buf with
  | none => .ok none buf
  | some n =>
      let line := buf.take n
      let rest := buf.drop (n + 1)
      match utf8Decode line with
      | none => .ioError
      | some cs =>
          let command :=
            if rustTrim cs = strCodes "version" then ADMIN_VERSION
            else if rustTrim cs = strCodes "status" then ADMIN_STATUS
            else ADMIN_UNKNOWN
          .ok (some (.Message ⟨.TEXT, command, 0⟩ false)) rest

/-- codec.rs: the `match &buf[0..4]` of `PacketHeader::decode`.  The source
compares against `REQ_slice` and `RES_slice`, but a plain identifier in a
Rust match arm is a fresh binding, not a comparison with the local variable
of the same name: the first arm captures every four-byte slice, so the match
evaluates to `PacketMagic::REQ` for every input (the compiler flags the
second and third arms as unreachable).  The embedding mirrors that semantics
exactly; the binder is unused just as the binding is unused in the source. -/
def decode_magic (first4 : List Nat) : PacketMagic :=
  match first4 with
  | _REQ_slice => PacketMagic.REQ

/-- codec.rs: `PacketHeader::decode` — evaluates `&buf[0..4]` first, which
panics when the buffer holds fewer than four bytes (the `buf.len() < 12`
check only comes later); then routes TEXT magic to admin_decode (dead code,
see `decode_magic`), waits for a full 12-byte header, and otherwise consumes
magic, ptype and psize, emitting a header frame with `body: true`.  The
`debug!` line indexes `PTYPES[ptype as usize]`; it is evaluated only when
debug logging is enabled and is not part of the embedded dataflow. -/
def PacketHeader.decode (buf : List Nat) : DecodeRes :=
  if buf.length < 4 then .panic
  else
    let magic := decode_magic (buf.take 4)
    if magic = PacketMagic.TEXT then admin_decode buf
    else if buf.length < 12 then .ok none buf
    else
      let ptype := getU32BE ((buf.drop 4).take 4)
      let psize := getU32BE ((buf.drop 8).take 4)
      .ok (some (.Message ⟨magic, ptype, psize⟩ true)) (buf.drop 12)

/-- codec.rs: `PacketHeader::to_bytes` — UNKNOWN magic panics (`none`), TEXT
returns the empty byte string, REQ/RES build the 12-byte header. -/
def PacketHeader.to_bytes (h : PacketHeader) : Option (List Nat) :=
  match h.magic with
  | .UNKNOWN => none
  | .TEXT => some []
  | .REQ => some (REQ ++ putU32BE h.ptype ++ putU32BE h.psize)
  | .RES => some (RES ++ putU32BE h.ptype ++ putU32BE h.psize)

/-- codec.rs: `impl Decoder for PacketCodec` — the codec state is
`data_todo`.  With no pending body, decode a header (recording `psize` as the
body still to come; a non-message frame here is the source's explicit
`panic!`).  With `data_todo = 0`, emit the end-of-body marker and leave the
state at zero.  Otherwise emit a chunk of `min(buf.len(), data_todo)` bytes
and subtract it from the count. -/
def PacketCodec.decode (data_todo : Option Nat) (buf : List Nat) :
    DecodeRes × Option Nat :=
  match data_todo with
  | none =>
      match PacketHeader.decode buf with
      | .panic => (.panic, none)
      | .ioError => (.ioError, none)
      | .ok (some (.Message m b)) rest =>
          (.ok (some (.Message m b)) rest, some m.psize)
      | .ok (some _) _ => (.panic, none)
      | .ok none rest => (.ok none rest, none)
  | some 0 => (.ok (some (.Body none)) buf, some 0)
  | some n =>
      let chunk_size := min buf.length n
      (.ok (some (.Body (some (buf.take chunk_size)))) (buf.drop chunk_size),
        some (n - chunk_size))

/-- Result of an encoder call: panic (UNKNOWN magic), `Err` (an error
frame), or the output buffer extended with the encoding. -/
inductive EncodeRes where
  | panic
  | err
  | ok (buf : List Nat)
deriving DecidableEq

/-- codec.rs: `impl Encoder for PacketCodec` — a message frame appends
`to_bytes` of its header, a body chunk appends its bytes, the end-of-body
marker appends nothing, an error frame returns the error. -/
def PacketCodec.encode (msg : Frame) (buf : List Nat) : EncodeRes :=
  match msg with
  | .Message m _ =>
      match m.to_bytes with
      | none => .panic
      | some bs => .ok (buf ++ bs)
  | .Body (some chunk) => .ok (buf ++ chunk)
  | .Body none => .ok buf
  | .Error => .err

/-- The packet after `k` calls of the field iterator's `next`. -/
def iterState (p : Packet) : Nat → Packet
  | 0 => p
  | k + 1 => ((iterState p k).next).2

/-! ## Lemmas about the field iterator -/

theorem Packet.next_of_exhausted {p : Packet}
    (h : p.nargs < p._field_count) : p.next = (none, p) := by
  simp [Packet.next, h]

theorem Packet.next_fst_isSome {p : Packet}
    (h : p._field_count ≤ p.nargs) : (p.next.1).isSome = true := by
  have hng : ¬ (p._field_count > p.nargs) := not_lt.mpr h
  unfold Packet.next
  rw [if_neg hng]
  split <;> rfl

theorem Packet.next_snd_fc {p : Packet}
    (h : p._field_count ≤ p.nargs) :
    (p.next.2)._field_count = p._field_count + 1 := by
  have hng : ¬ (p._field_count > p.nargs) := not_lt.mpr h
  unfold Packet.next
  rw [if_neg hng]
  split <;> rfl

theorem Packet.next_snd_ptype (p : Packet) : (p.next.2).ptype = p.ptype := by
  unfold Packet.next
  split
  · rfl
  · split <;> rfl

theorem Packet.next_snd_nargs (p : Packet) : (p.next.2).nargs = p.nargs := by
  unfold Packet.nargs
  rw [Packet.next_snd_ptype]

theorem iterState_invariant (p : Packet) (h0 : p._field_count = 0)
    (hn : 0 ≤ p.nargs) (k : Nat) :
    (iterState p k).nargs = p.nargs ∧
      (iterState p k)._field_count = min (k : Int) (p.nargs + 1) := by
  induction k with
  | zero =>
      refine ⟨rfl, ?_⟩
      show p._field_count = min (0 : Int) (p.nargs + 1)
      rw [h0]
      omega
  | succ k ih =>
      obtain ⟨hna, hfc⟩ := ih
      constructor
      · show ((iterState p k).next.2).nargs = p.nargs
        rw [Packet.next_snd_nargs, hna]
      · show ((iterState p k).next.2)._field_count = _
        by_cases hle :
            (iterState p k)._field_count ≤ (iterState p k).nargs
        · rw [Packet.next_snd_fc hle, hfc]
          rw [hna, hfc] at hle
          omega
        · push_neg at hle
          rw [Packet.next_of_exhausted hle]
          rw [hfc]
          rw [hna, hfc] at hle
          omega

/-! ## Lemmas about the ability set and the admin line split -/

theorem mem_setInsert_self (f : List Nat) (s : List (List Nat)) :
    f ∈ setInsert f s := by
  unfold setInsert
  by_cases h : f ∈ s <;> simp [h]

theorem setInsert_idem (f : List Nat) (s : List (List Nat)) :
    setInsert f (setInsert f s) = setInsert f s := by
  by_cases h : f ∈ s
  · simp [setInsert, h]
  · have h2 : f ∈ s ++ [f] := by simp
    simp [setInsert, h, h2]

theorem not_mem_setRemove_self (f : List Nat) (s : List (List Nat)) :
    f ∉ setRemove f s := by
  simp [setRemove, List.mem_filter]

theorem position_append_cons (t : Nat) (l r : List Nat) (h : ¬ t ∈ l) :
    position t (l ++ t :: r) = some l.length := by
  induction l with
  | nil => simp [position]
  | cons b l ih =>
      have hb : ¬ b = t := by
        intro e
        exact h (by simp [e])
      have hl : ¬ t ∈ l := fun m => h (List.mem_cons_of_mem _ m)
      simp [position, hb, ih hl]

theorem take_append_cons (l r : List Nat) (a : Nat) :
    (l ++ a :: r).take l.length = l := by
  induction l with
  | nil => rfl
  | cons b l ih => simp [List.length_cons, List.take_succ_cons, ih]

theorem drop_append_cons (l r : List Nat) (a : Nat) :
    (l ++ a :: r).drop (l.length + 1) = r := by
  induction l with
  | nil => rfl
  | cons b l ih => simp [ih]

/-- Reduction of `admin_decode` on a buffer whose first LF-free line is
explicit: the decoder consumes the line and the LF and dispatches on the
line's UTF-8 decoding. -/
theorem admin_decode_split (line rest : List Nat) (hLF : ¬ 10 ∈ line) :
    admin_decode (line ++ 10 :: rest) =
      match utf8Decode line with
      | none => .ioError
      | some cs =>
          .ok (some (.Message ⟨.TEXT,
            if rustTrim cs = strCodes "version" then ADMIN_VERSION
            else if rustTrim cs = strCodes "status" then ADMIN_STATUS
            else ADMIN_UNKNOWN, 0⟩ false)) rest := by
  simp only [admin_decode, position_append_cons 10 line rest hLF,
    take_append_cons, drop_append_cons]

/-! ## Claims -/

/-- C1: the claim says the first four bytes classify the stream — `"\0REQ"`
as REQ, `"\0RES"` as RES, anything else as TEXT routed to the admin decoder.
The code classifies every buffer as REQ: the match arms of
`PacketHeader::decode` are binding patterns (see `decode_magic`), so a
`"\0RES"` header decodes with magic REQ and a text buffer is never routed to
the admin decoder. -/
theorem C1_magic_always_req :
    PacketHeader.decode [0, 82, 69, 83, 0, 0, 0, 10, 0, 0, 0, 0] =
      .ok (some (.Message ⟨.REQ, 10, 0⟩ true)) [] ∧
    decode_magic RES = .REQ ∧
    decode_magic [118, 101, 114, 115] = .REQ :=
  ⟨rfl, rfl, rfl⟩

/-- C2: the claim says a GRAB_JOB_ALL with a matching queued job dequeues it
and returns a JOB_ASSIGN_ALL response.  The code dequeues the job and then
returns `Ok(None)`: no response packet is produced and the job is dropped
(only the NO_JOB half of the claim holds).  Evaluated on a queue holding one
job for function `f` and a worker registered for `f`, and on the empty
queue. -/
theorem C2_grab_job_all_drops_job :
    Packet.handleGrabJobAll (requestPacket GRAB_JOB_ALL [])
        ⟨[Job.new 0 [102] [117] [112]]⟩ ⟨[[102]]⟩ = .ok (none, ⟨[]⟩) ∧
    Packet.handleGrabJobAll (requestPacket GRAB_JOB_ALL []) ⟨[]⟩ ⟨[[102]]⟩ =
      .ok (some (Packet.new_res NO_JOB []), ⟨[]⟩) :=
  ⟨rfl, rfl⟩

/-- C3: the claim says a second SUBMIT_JOB with the same `(fname, unique)`
coalesces and replies with the first submission's handle.  The code builds
the JOB_CREATED reply from the handle of the unconditionally created fresh
job before `add_job` runs, so the two replies carry different handles
(`[0,0,0,0]` then `[1,0,0,0]`), even though the coalescing `add_job`
(modelled from the spec) inserts no second job. -/
theorem C3_submit_job_fresh_handle :
    Packet.handleSubmitJob (requestPacket SUBMIT_JOB [102, 0, 117, 0, 112])
        ⟨[]⟩ 0 =
      .ok (some (Packet.new_res JOB_CREATED [0, 0, 0, 0]),
        ⟨.REQ, 7, 5, [102, 0, 117, 0, 112], 4, 3⟩,
        ⟨[Job.new 0 [102, 0] [117, 0, 112] [117, 0]]⟩, 1) ∧
    Packet.handleSubmitJob (requestPacket SUBMIT_JOB [102, 0, 117, 0, 112])
        ⟨[Job.new 0 [102, 0] [117, 0, 112] [117, 0]]⟩ 1 =
      .ok (some (Packet.new_res JOB_CREATED [1, 0, 0, 0]),
        ⟨.REQ, 7, 5, [102, 0, 117, 0, 112], 4, 3⟩,
        ⟨[Job.new 0 [102, 0] [117, 0, 112] [117, 0]]⟩, 2) ∧
    Packet.new_res JOB_CREATED [0, 0, 0, 0] ≠
      Packet.new_res JOB_CREATED [1, 0, 0, 0] :=
  ⟨rfl, rfl, by decide⟩

/-- C4: for every packet whose ptype declares `nargs ≥ 0`, the field
iterator yields a range on each of its first `nargs + 1` calls (the calls
whose zero-based index is at most `nargs`), yields `none` on every further
call, and `nextField` past the declared count returns a parse error. -/
theorem C4_field_iterator_count (ptype : Nat) (d : List Nat)
    (_h43 : ptype < 43) (hn : 0 ≤ (requestPacket ptype d).nargs) :
    (∀ k : Nat, (k : Int) ≤ (requestPacket ptype d).nargs →
      ((iterState (requestPacket ptype d) k).next.1).isSome = true) ∧
    (∀ k : Nat, (requestPacket ptype d).nargs < (k : Int) →
      (iterState (requestPacket ptype d) k).next.1 = none) ∧
    (∀ k : Nat, (requestPacket ptype d).nargs < (k : Int) →
      (iterState (requestPacket ptype d) k).nextField = .error ⟨⟩) := by
  have h0 : (requestPacket ptype d)._field_count = 0 := rfl
  refine ⟨?_, ?_, ?_⟩
  · intro k hk
    obtain ⟨hna, hfc⟩ :=
      iterState_invariant (requestPacket ptype d) h0 hn k
    apply Packet.next_fst_isSome
    rw [hna, hfc]
    omega
  · intro k hk
    obtain ⟨hna, hfc⟩ :=
      iterState_invariant (requestPacket ptype d) h0 hn k
    have hex : (iterState (requestPacket ptype d) k).nargs <
        (iterState (requestPacket ptype d) k)._field_count := by
      rw [hna, hfc]
      omega
    rw [Packet.next_of_exhausted hex]
  · intro k hk
    obtain ⟨hna, hfc⟩ :=
      iterState_invariant (requestPacket ptype d) h0 hn k
    have hex : (iterState (requestPacket ptype d) k).nargs <
        (iterState (requestPacket ptype d) k)._field_count := by
      rw [hna, hfc]
      omega
    unfold Packet.nextField
    rw [Packet.next_of_exhausted hex]

/-- Witness for C4 at a SUBMIT_JOB packet (`nargs = 2`) with payload
`"a\0b\0r"`: the third call still yields, the fourth call yields `none` and
`nextField` errors there. -/
theorem C4_field_iterator_count_witness :
    ((iterState (requestPacket 7 [97, 0, 98, 0, 114]) 2).next.1).isSome =
      true ∧
    (iterState (requestPacket 7 [97, 0, 98, 0, 114]) 3).next.1 = none ∧
    (iterState (requestPacket 7 [97, 0, 98, 0, 114]) 3).nextField =
      .error ⟨⟩ :=
  ⟨(C4_field_iterator_count 7 [97, 0, 98, 0, 114] (by decide)
      (by decide)).1 2 (by decide),
   (C4_field_iterator_count 7 [97, 0, 98, 0, 114] (by decide)
      (by decide)).2.1 3 (by decide),
   (C4_field_iterator_count 7 [97, 0, 98, 0, 114] (by decide)
      (by decide)).2.2 3 (by decide)⟩

/-- C5: the claim says each of the `nargs` leading ranges excludes its NUL
separator and the final range is the remainder after the last separator.  On
a SUBMIT_JOB packet (`nargs = 2`) with data `"a\0b\0r"` the iterator yields
`(0,2), (2,5), (2,4)`: the first range includes the separating NUL (the
claim expects `(0,1)`), the remainder range `(2,5)` is yielded second rather
than last, and the final yield `(2,4)` is not the post-separator remainder
`(4,5)`. -/
theorem C5_field_ranges_off_by_one :
    (requestPacket SUBMIT_JOB [97, 0, 98, 0, 114]).next.1 = some (0, 2) ∧
    (requestPacket SUBMIT_JOB [97, 0, 98, 0, 114]).next.2.next.1 =
      some (2, 5) ∧
    (requestPacket SUBMIT_JOB [97, 0, 98, 0, 114]).next.2.next.2.next.1 =
      some (2, 4) ∧
    (requestPacket SUBMIT_JOB [97, 0, 98, 0, 114]).next.1 ≠ some (0, 1) :=
  ⟨rfl, rfl, rfl, by decide⟩

/-- C6: the claim says decode-then-encode reproduces every well-formed
frame.  For the frame `"\0RES" ++ be32(10) ++ be32(0)` the decoder emits a
header with magic REQ (the match-binding bug of `decode_magic`), so the
re-encoded bytes start with `"\0REQ"` and differ from the input. -/
theorem C6_roundtrip_fails_for_res :
    PacketCodec.decode none [0, 82, 69, 83, 0, 0, 0, 10, 0, 0, 0, 0] =
      (.ok (some (.Message ⟨.REQ, 10, 0⟩ true)) [], some 0) ∧
    PacketCodec.decode (some 0) [] =
      (.ok (some (.Body none)) [], some 0) ∧
    PacketCodec.encode (.Message ⟨.REQ, 10, 0⟩ true) [] =
      .ok [0, 82, 69, 81, 0, 0, 0, 10, 0, 0, 0, 0] ∧
    PacketCodec.encode (.Body none) [0, 82, 69, 81, 0, 0, 0, 10, 0, 0, 0, 0] =
      .ok [0, 82, 69, 81, 0, 0, 0, 10, 0, 0, 0, 0] ∧
    ([0, 82, 69, 81, 0, 0, 0, 10, 0, 0, 0, 0] : List Nat) ≠
      [0, 82, 69, 83, 0, 0, 0, 10, 0, 0, 0, 0] :=
  ⟨rfl, rfl, rfl, rfl, by decide⟩

/-- C7 counterexample: the claim says the admin decoder recognizes the five
reserved commands version, status, workers, maxqueue, shutdown.  The line
`"workers\n"` is classified with the same ADMIN_UNKNOWN code as an arbitrary
unknown line `"bogus\n"`, and that code differs from the version and status
codes — `workers` is not recognized. -/
theorem C7_admin_counterexample :
    admin_decode [119, 111, 114, 107, 101, 114, 115, 10] =
      .ok (some (.Message ⟨.TEXT, ADMIN_UNKNOWN, 0⟩ false)) [] ∧
    admin_decode [98, 111, 103, 117, 115, 10] =
      .ok (some (.Message ⟨.TEXT, ADMIN_UNKNOWN, 0⟩ false)) [] ∧
    ADMIN_UNKNOWN ≠ ADMIN_VERSION ∧ ADMIN_UNKNOWN ≠ ADMIN_STATUS :=
  ⟨rfl, rfl, by decide, by decide⟩

/-- C7 amended: for every LF-terminated line that is valid UTF-8, the admin
decoder consumes the line and the LF and classifies the trimmed line:
`version` and `status` map to their command codes and every other line —
including `workers`, `maxqueue` and `shutdown` — maps to ADMIN_UNKNOWN. -/
theorem C7_amended_two_commands (line rest cs : List Nat)
    (hLF : ¬ 10 ∈ line) (hutf : utf8Decode line = some cs) :
    admin_decode (line ++ 10 :: rest) =
      .ok (some (.Message ⟨.TEXT,
        if rustTrim cs = strCodes "version" then ADMIN_VERSION
        else if rustTrim cs = strCodes "status" then ADMIN_STATUS
        else ADMIN_UNKNOWN, 0⟩ false)) rest := by
  rw [admin_decode_split line rest hLF, hutf]

/-- Witness for the amended C7 at the line `"status"`. -/
theorem C7_amended_two_commands_witness :
    admin_decode ([115, 116, 97, 116, 117, 115] ++ 10 :: []) =
      .ok (some (.Message ⟨.TEXT,
        if rustTrim [115, 116, 97, 116, 117, 115] = strCodes "version" then
          ADMIN_VERSION
        else if rustTrim [115, 116, 97, 116, 117, 115] = strCodes "status"
          then ADMIN_STATUS
        else ADMIN_UNKNOWN, 0⟩ false)) [] :=
  C7_amended_two_commands [115, 116, 97, 116, 117, 115] []
    [115, 116, 97, 116, 117, 115] (by decide) rfl

/-- C8: a buffer whose first LF-terminated line is not valid UTF-8 makes the
admin decoder return the connection-fatal error; a buffer whose first
complete line is valid UTF-8 never yields an error. -/
theorem C8_admin_utf8_fatal (line rest : List Nat) (hLF : ¬ 10 ∈ line) :
    (utf8Decode line = none →
      admin_decode (line ++ 10 :: rest) = .ioError) ∧
    (∀ cs, utf8Decode line = some cs →
      ∃ item buf', admin_decode (line ++ 10 :: rest) = .ok item buf') := by
  constructor
  · intro hnone
    rw [admin_decode_split line rest hLF, hnone]
  · intro cs hsome
    rw [admin_decode_split line rest hLF, hsome]
    exact ⟨_, _, rfl⟩

/-- Witness for C8: the lone byte 0xFF is invalid UTF-8 and the decoder
errors on `[0xFF]\n`; the line `"hi"` is valid UTF-8 and the decoder
produces a frame. -/
theorem C8_admin_utf8_fatal_witness :
    admin_decode ([255] ++ 10 :: []) = .ioError ∧
    ∃ item buf', admin_decode ([104, 105] ++ 10 :: []) = .ok item buf' :=
  ⟨(C8_admin_utf8_fatal [255] [] (by decide)).1 rfl,
   (C8_admin_utf8_fatal [104, 105] [] (by decide)).2 [104, 105] rfl⟩

/-- C9: for every worker and every CAN_DO payload, processing CAN_DO yields
no response and leaves the carried function name in the ability set;
processing the same CAN_DO twice leaves the worker in the same state as
processing it once; processing CANT_DO yields no response and leaves the
name absent from the ability set. -/
theorem C9_can_do_cant_do (d : List Nat) (w : Worker) :
    Packet.handleCanDo (requestPacket CAN_DO d) w =
      .ok (none,
        ⟨.REQ, CAN_DO, d.length % 4294967296, d, scanField d 0, 1⟩,
        ⟨setInsert (d.take (scanField d 0)) w.functions⟩) ∧
    d.take (scanField d 0) ∈ setInsert (d.take (scanField d 0)) w.functions ∧
    Packet.handleCanDo (requestPacket CAN_DO d)
        ⟨setInsert (d.take (scanField d 0)) w.functions⟩ =
      .ok (none,
        ⟨.REQ, CAN_DO, d.length % 4294967296, d, scanField d 0, 1⟩,
        ⟨setInsert (d.take (scanField d 0)) w.functions⟩) ∧
    Packet.handleCantDo (requestPacket CANT_DO d) w =
      .ok (none,
        ⟨.REQ, CANT_DO, d.length % 4294967296, d, scanField d 0, 1⟩,
        ⟨setRemove (d.take (scanField d 0)) w.functions⟩) ∧
    d.take (scanField d 0) ∉ setRemove (d.take (scanField d 0)) w.functions := by
  refine ⟨rfl, mem_setInsert_self _ _, ?_, rfl, not_mem_setRemove_self _ _⟩
  have h : Packet.handleCanDo (requestPacket CAN_DO d)
      ⟨setInsert (d.take (scanField d 0)) w.functions⟩ =
    .ok (none,
      ⟨.REQ, CAN_DO, d.length % 4294967296, d, scanField d 0, 1⟩,
      ⟨setInsert (d.take (scanField d 0))
        (setInsert (d.take (scanField d 0)) w.functions)⟩) := rfl
  rw [h, setInsert_idem]

/-- C10: the claim says the codec decoder is total and answers `Ok(None)`
on buffers shorter than a header.  `PacketHeader::decode` evaluates
`&buf[0..4]` before any length check, so in the header-awaiting state the
decoder panics with an out-of-range slice on every buffer of fewer than four
bytes (here: the empty buffer and a three-byte fragment). -/
theorem C10_decode_panics_on_short_buffer :
    PacketCodec.decode none [] = (.panic, none) ∧
    PacketCodec.decode none [0, 82, 69] = (.panic, none) ∧
    PacketCodec.decode none [0, 82, 69, 81, 0] =
      (.ok none [0, 82, 69, 81, 0], none) :=
  ⟨rfl, rfl, rfl⟩

end Rustygear
